import Mathlib

/-!
Verification of the Agent Task Player execution engine (TaskRunner, plan
model, CLI adapter glue) by shallow embedding of its TypeScript source.

Translated sources:
  * models/types.ts       — core data model (Task, Playlist, Plan, results)
  * models/plan.ts        — hydrate/dehydrate between PlanFile and Plan
  * adapters (runCli)     — exit-code normalization on process close
  * runner (TaskRunner)   — play/pause/stop dispatch, traversal loop,
                            dependency gating, retry, verification, history
  * extension (cmdPlay)   — the fresh-full-run command path

External effects (process spawning, the filesystem, VS Code configuration,
wall-clock time, and the asynchronous runner-state field that `pause`/`stop`
mutate concurrently) are modelled as oracle parameters threaded through an
explicit run state; everything the TypeScript functions themselves compute is
translated directly.
-/

namespace Moag

/-- Supported agent engine identifiers (models/types.ts `EngineId`). -/
inductive EngineId
  | codex
  | claude
  | gemini
  | ollama
  | custom
deriving DecidableEq, Repr

/-- Render an engine identifier the way TypeScript string-interpolates it. -/
def EngineId.str : EngineId → String
  | .codex => "codex"
  | .claude => "claude"
  | .gemini => "gemini"
  | .ollama => "ollama"
  | .custom => "custom"

/-- Status of a task in the execution lifecycle (models/types.ts `TaskStatus`). -/
inductive TaskStatus
  | pending
  | running
  | paused
  | completed
  | failed
  | skipped
deriving DecidableEq, Repr

/-- Status of the runner state machine (models/types.ts `RunnerState`). -/
inductive RunnerState
  | idle
  | playing
  | paused
  | stopping
deriving DecidableEq, Repr

/-- A single task (models/types.ts `Task`); optional TypeScript fields become
`Option`, and the runtime `status` field is kept in place as in the source. -/
structure Task where
  id : String
  name : String
  prompt : String
  engine : Option EngineId
  cwd : Option String
  files : Option (List String)
  verifyCommand : Option String
  retryCount : Option Nat
  dependsOn : Option (List String)
  status : TaskStatus
deriving DecidableEq, Repr

/-- An ordered group of tasks (models/types.ts `Playlist`). -/
structure Playlist where
  id : String
  name : String
  engine : Option EngineId
  autoplay : Bool
  autoplayDelay : Option Nat
  parallel : Option Bool
  tasks : List Task
deriving DecidableEq, Repr

/-- Top-level plan (models/types.ts `Plan`). -/
structure Plan where
  version : String
  name : String
  description : Option String
  defaultEngine : EngineId
  playlists : List Playlist
deriving DecidableEq, Repr

/-- Result returned by an engine adapter (models/types.ts `EngineResult`);
the optional token-usage and command fields are omitted because no engine in
the repository is modelled at the level that fills them. -/
structure EngineResult where
  stdout : String
  stderr : String
  exitCode : Int
  durationMs : Nat
deriving DecidableEq, Repr

/-- One entry of the execution history log (models/types.ts `HistoryEntry`);
`id` models `generateId()` as a fresh counter and the ISO timestamps are
modelled as readings of an abstract monotone clock. -/
structure HistoryEntry where
  id : Nat
  taskId : String
  taskName : String
  playlistId : String
  playlistName : String
  engine : EngineId
  prompt : String
  result : EngineResult
  status : TaskStatus
  startedAt : Nat
  finishedAt : Nat
deriving DecidableEq, Repr

/-- Output stream tag used by task-output events. -/
inductive StreamTag
  | stdout
  | stderr
deriving DecidableEq, Repr

/-- Lifecycle events emitted by the TaskRunner (`RunnerEvents`); events carry
the task or playlist id of the source object. -/
inductive REvent
  | taskStarted (taskId : String)
  | taskOutput (taskId : String) (chunk : String) (stream : StreamTag)
  | taskCompleted (taskId : String) (result : EngineResult)
  | taskFailed (taskId : String) (result : EngineResult)
  | playlistCompleted (playlistId : String)
  | allCompleted
deriving DecidableEq, Repr

/-! ### Plan file model and hydrate/dehydrate (models/plan.ts) -/

/-- Serializable task (models/types.ts `PlanFileTask`): no status field, but
`retryCount` and `dependsOn` are declared. -/
structure PlanFileTask where
  id : String
  name : String
  prompt : String
  engine : Option EngineId
  cwd : Option String
  files : Option (List String)
  verifyCommand : Option String
  retryCount : Option Nat
  dependsOn : Option (List String)
deriving DecidableEq, Repr

/-- Serializable playlist (models/types.ts `PlanFilePlaylist`); `autoplay` is
declared required by the interface but the hydration code defends against a
missing value with `?? true`, so it is modelled as optional. -/
structure PlanFilePlaylist where
  id : String
  name : String
  engine : Option EngineId
  autoplay : Option Bool
  autoplayDelay : Option Nat
  parallel : Option Bool
  tasks : List PlanFileTask
deriving DecidableEq, Repr

/-- Serializable plan (models/types.ts `PlanFile`). -/
structure PlanFile where
  version : String
  name : String
  description : Option String
  defaultEngine : EngineId
  playlists : List PlanFilePlaylist
deriving DecidableEq, Repr

/-- models/plan.ts `hydrateTask`: only the listed fields are copied; status
becomes Pending, and `retryCount`/`dependsOn` are not carried over. -/
def hydrateTask (t : PlanFileTask) : Task :=
  { id := t.id
    name := t.name
    prompt := t.prompt
    engine := t.engine
    cwd := t.cwd
    files := t.files
    verifyCommand := t.verifyCommand
    retryCount := none
    dependsOn := none
    status := TaskStatus.pending }

/-- models/plan.ts `hydratePlaylist`: `autoplay ?? true`; the `parallel` flag
is not carried over. -/
def hydratePlaylist (p : PlanFilePlaylist) : Playlist :=
  { id := p.id
    name := p.name
    engine := p.engine
    autoplay := p.autoplay.getD true
    autoplayDelay := p.autoplayDelay
    parallel := none
    tasks := p.tasks.map hydrateTask }

/-- models/plan.ts `hydratePlan`. -/
def hydratePlan (f : PlanFile) : Plan :=
  { version := f.version
    name := f.name
    description := f.description
    defaultEngine := f.defaultEngine
    playlists := f.playlists.map hydratePlaylist }

/-- models/plan.ts `dehydrateTask`: only the listed fields are written;
`retryCount` and `dependsOn` are not. -/
def dehydrateTask (t : Task) : PlanFileTask :=
  { id := t.id
    name := t.name
    prompt := t.prompt
    engine := t.engine
    cwd := t.cwd
    files := t.files
    verifyCommand := t.verifyCommand
    retryCount := none
    dependsOn := none }

/-- models/plan.ts `dehydratePlaylist`: `parallel` is not written. -/
def dehydratePlaylist (p : Playlist) : PlanFilePlaylist :=
  { id := p.id
    name := p.name
    engine := p.engine
    autoplay := some p.autoplay
    autoplayDelay := p.autoplayDelay
    parallel := none
    tasks := p.tasks.map dehydrateTask }

/-- models/plan.ts `dehydratePlan`. -/
def dehydratePlan (plan : Plan) : PlanFile :=
  { version := plan.version
    name := plan.name
    description := plan.description
    defaultEngine := plan.defaultEngine
    playlists := plan.playlists.map dehydratePlaylist }

/-! ### Process adapter result normalization (base CLI adapter `runCli`) -/

/-- Result the base CLI adapter resolves with in its close handler:
`{ stdout, stderr, exitCode: code ?? 1, durationMs }`, where `code` is the
possibly-null exit code reported by the child process close event. -/
def runCliCloseResult (stdout stderr : String) (code : Option Int) (durationMs : Nat) :
    EngineResult :=
  { stdout := stdout
    stderr := stderr
    exitCode := code.getD 1
    durationMs := durationMs }

/-! ### Runner control-state dispatch (TaskRunner.play / pause / stop) -/

/-- Control-relevant fields of the TaskRunner object: the `_state` field and
whether a `_pauseResolve` callback is currently stored. -/
structure RunnerCtl where
  state : RunnerState
  hasPauseResolve : Bool
deriving DecidableEq, Repr

/-- What a call to `play(plan, playlistIndex, taskIndex)` does, abstracted
from the awaited run loop. -/
inductive PlayAction
  | noop
  | resume
  | startTraversal (playlistIndex taskIndex : Nat)
deriving DecidableEq, Repr

/-- TaskRunner.play control flow: return immediately when Playing; when
Paused with a stored pause-resolve, move to Playing, fire it, clear it and
return; otherwise record the cursor, move to Playing and start the run loop. -/
def playDispatch (ctl : RunnerCtl) (playlistIndex taskIndex : Nat) :
    RunnerCtl × PlayAction :=
  if ctl.state = RunnerState.playing then
    (ctl, PlayAction.noop)
  else if ctl.state = RunnerState.paused ∧ ctl.hasPauseResolve then
    ({ state := RunnerState.playing, hasPauseResolve := false }, PlayAction.resume)
  else
    ({ state := RunnerState.playing, hasPauseResolve := ctl.hasPauseResolve },
      PlayAction.startTraversal playlistIndex taskIndex)

/-- TaskRunner.resetPlan: set every task status in the plan to Pending. -/
def resetPlan (plan : Plan) : Plan :=
  { plan with
      playlists := plan.playlists.map fun pl =>
        { pl with tasks := pl.tasks.map fun t => { t with status := TaskStatus.pending } } }

/-- extension.ts `cmdPlay`, reduced to which plan (if any) is handed to a
fresh traversal: from Paused it resumes (no fresh traversal), from Playing it
returns, a failed pre-flight engine check returns, and otherwise it calls
`resetPlan` and then `play` on the reset plan from the start. -/
def cmdPlayFreshPlan (ctl : RunnerCtl) (preflightOk : Bool) (plan : Plan) :
    Option Plan :=
  if ctl.state = RunnerState.paused then none
  else if ctl.state = RunnerState.playing then none
  else if preflightOk = false then none
  else some (resetPlan plan)

/-! ### Runner traversal interpreter

The run loop interacts with its environment only at identifiable points:
reads of the asynchronously mutated `_state` field, calls to the engine
adapter, calls to the verification command runner, filesystem reads, and the
workspace root / configuration lookups.  Each is an oracle in `REnv`; the
`stateAt` oracle is indexed by a counter of state reads so `pause`/`stop`
races are expressible, and the adapter and verify oracles are indexed by how
many invocations happened before the call. -/

/-- Environment oracles for one run. -/
structure REnv where
  stateAt : Nat → RunnerState
  adapter : Nat → Except String EngineResult
  verify : Nat → Int
  fsRead : String → Option String
  workspaceRoot : String
  configAutoplayDelay : Nat

/-- Mutable state threaded through the traversal: the plan (whose task
statuses the runner mutates in place), the queue-tracking cursor fields, the
history log, the emitted events, the ids of tasks for which the adapter was
invoked (in invocation order), the verify-call count, the count of `_state`
reads, and an abstract clock for timestamps. -/
structure RunState where
  plan : Plan
  currentPlaylistIndex : Nat
  currentTaskIndex : Nat
  history : List HistoryEntry
  events : List REvent
  invoked : List String
  verifyCount : Nat
  stateReads : Nat
  now : Nat
deriving Repr

/-- Read the runner's `_state` field once. -/
def readState (env : REnv) (st : RunState) : RunnerState × RunState :=
  (env.stateAt st.stateReads, { st with stateReads := st.stateReads + 1 })

/-- Replace a list element in place, as JS mutation of an array slot. -/
def listModify (f : α → α) : Nat → List α → List α
  | _, [] => []
  | 0, a :: as => f a :: as
  | n + 1, a :: as => a :: listModify f n as

/-- Mutate `plan.playlists[pi].tasks[ti].status` in place. -/
def setTaskStatus (plan : Plan) (pi ti : Nat) (s : TaskStatus) : Plan :=
  { plan with
      playlists := listModify
        (fun pl => { pl with tasks := listModify (fun t => { t with status := s }) ti pl.tasks })
        pi plan.playlists }

/-- TypeScript string interpolation of a possibly-undefined number. -/
def jsOptNat : Option Nat → String
  | some n => toString n
  | none => "undefined"

/-- Substring test, modelling JavaScript `String.prototype.includes` for a
non-empty pattern. -/
def strIncludes (s pat : String) : Bool :=
  (s.splitOn pat).length != 1

/-- POSIX model of Node `path.isAbsolute`. -/
def isAbsolutePath (p : String) : Bool :=
  p.startsWith "/"

/-- Model of Node `path.join` for the two-argument uses in the runner. -/
def pathJoin (a b : String) : String :=
  a ++ "/" ++ b

/-- TaskRunner.resolveCwd: task cwd override resolved against the workspace
root, else the workspace root itself. -/
def resolveCwd (env : REnv) (taskCwd : Option String) : String :=
  match taskCwd with
  | none => env.workspaceRoot
  | some c => if isAbsolutePath c then c else pathJoin env.workspaceRoot c

/-- TaskRunner.buildPrompt: append declared context files (read through the
filesystem oracle) to the task prompt. -/
def buildPrompt (env : REnv) (task : Task) (cwd : String) : String :=
  match task.files with
  | none => task.prompt
  | some files =>
    if files.length > 0 then
      let fileContents := files.map fun fp =>
        let resolved := if isAbsolutePath fp then fp else pathJoin cwd fp
        match env.fsRead resolved with
        | some content => "--- " ++ fp ++ " ---\n" ++ content
        | none => "--- " ++ fp ++ " --- (file not found)"
      task.prompt ++ "\n\nContext files:\n\n" ++ String.intercalate "\n\n" fileContents
    else task.prompt

/-- TaskRunner.getErrorGuidance: advisory hint text keyed on recognizable
substrings of the error message. -/
def getErrorGuidance (errorMsg : String) (engineId : EngineId) : Option String :=
  let lower := errorMsg.toLower
  if strIncludes lower "enoent" || strIncludes lower "not found" ||
      strIncludes lower "not recognized" then
    some ("Hint: The \"" ++ engineId.str ++
      "\" CLI does not appear to be installed or is not in your PATH. " ++
      "Check the command in Settings > agentTaskPlayer.engines." ++ engineId.str ++ ".command")
  else if strIncludes lower "eacces" || strIncludes lower "permission denied" then
    some ("Hint: Permission denied. Ensure the \"" ++ engineId.str ++
      "\" CLI binary is executable.")
  else if strIncludes lower "timeout" || strIncludes lower "etimedout" then
    some "Hint: The task timed out. The AI engine may be overloaded — try again or use a different engine."
  else if strIncludes lower "api key" || strIncludes lower "unauthorized" ||
      strIncludes lower "authentication" then
    some ("Hint: Authentication failed. Ensure your API key or credentials for \"" ++
      engineId.str ++ "\" are configured correctly.")
  else if strIncludes lower "rate limit" || strIncludes lower "429" then
    some ("Hint: Rate limited by the \"" ++ engineId.str ++ "\" API. Wait a moment and try again.")
  else none

/-- Engine resolution by strict override precedence: task engine, else
playlist engine, else the plan default. -/
def resolveEngine (task : Task) (pl : Playlist) (plan : Plan) : EngineId :=
  task.engine.getD (pl.engine.getD plan.defaultEngine)

/-- TaskRunner.executeTask for the task at position `(pi, ti)` (the `task`
and `pl` arguments are the array elements at that position; only their
`status` field ever changes, through the plan).  Resolves the engine and cwd,
builds the prompt, marks the task Running, emits task-started, invokes the
adapter oracle; on a resolved result it applies the optional verification
override, sets Completed/Failed from the exit code, emits the matching event
and appends one history entry; on a rejected adapter promise it builds the
guidance-augmented failure result, sets Failed, emits task-failed and appends
one history entry.  Per-chunk task-output streaming from the adapter is
external process behavior and is not modelled.  Returns the final status it
wrote (the value `task.status` has after the call). -/
def executeTask (env : REnv) (pi ti : Nat) (task : Task) (pl : Playlist)
    (st : RunState) : RunState × TaskStatus :=
  let engineId := resolveEngine task pl st.plan
  let cwd := resolveCwd env task.cwd
  let fullPrompt := buildPrompt env task cwd
  let st := { st with plan := setTaskStatus st.plan pi ti TaskStatus.running }
  let startedAt := st.now
  let st := { st with now := st.now + 1,
                      events := st.events ++ [REvent.taskStarted task.id] }
  match env.adapter st.invoked.length with
  | Except.ok result0 =>
    let st := { st with invoked := st.invoked ++ [task.id] }
    let verifyNeeded := result0.exitCode == 0 && task.verifyCommand.isSome
    let verifyExit := env.verify st.verifyCount
    let st := if verifyNeeded then { st with verifyCount := st.verifyCount + 1 } else st
    let result :=
      if verifyNeeded then
        if verifyExit ≠ 0 then
          { result0 with exitCode := verifyExit,
                         stderr := result0.stderr ++ "\n[Verification command failed]" }
        else result0
      else result0
    let finishedAt := st.now
    let st := { st with now := st.now + 1 }
    let status := if result.exitCode = 0 then TaskStatus.completed else TaskStatus.failed
    let ev := if result.exitCode = 0 then REvent.taskCompleted task.id result
              else REvent.taskFailed task.id result
    let entry : HistoryEntry :=
      { id := st.history.length
        taskId := task.id
        taskName := task.name
        playlistId := pl.id
        playlistName := pl.name
        engine := engineId
        prompt := fullPrompt
        result := result
        status := status
        startedAt := startedAt
        finishedAt := finishedAt }
    ({ st with plan := setTaskStatus st.plan pi ti status,
               events := st.events ++ [ev],
               history := st.history ++ [entry] }, status)
  | Except.error msg =>
    let st := { st with invoked := st.invoked ++ [task.id] }
    let finishedAt := st.now
    let st := { st with now := st.now + 1 }
    let guidance := getErrorGuidance msg engineId
    let errorResult : EngineResult :=
      { stdout := ""
        stderr := match guidance with
                  | some g => msg ++ "\n\n" ++ g
                  | none => msg
        exitCode := 1
        durationMs := 0 }
    let entry : HistoryEntry :=
      { id := st.history.length
        taskId := task.id
        taskName := task.name
        playlistId := pl.id
        playlistName := pl.name
        engine := engineId
        prompt := fullPrompt
        result := errorResult
        status := TaskStatus.failed
        startedAt := startedAt
        finishedAt := finishedAt }
    ({ st with plan := setTaskStatus st.plan pi ti TaskStatus.failed,
               events := st.events ++ [REvent.taskFailed task.id errorResult],
               history := st.history ++ [entry] }, TaskStatus.failed)

/-- TaskRunner.checkDependencies: true stands for the source's `'ok'`, false
for `'skip'`.  A dependency id that resolves to no task, or a dependency
whose status is Failed, Skipped, or anything other than Completed, yields
skip. -/
def depsOk (allTasks : List Task) : List String → Bool
  | [] => true
  | depId :: rest =>
    match allTasks.find? (fun t => t.id == depId) with
    | none => false
    | some dep =>
      if dep.status = TaskStatus.failed ∨ dep.status = TaskStatus.skipped then false
      else if dep.status ≠ TaskStatus.completed then false
      else depsOk allTasks rest

/-- TaskRunner.checkDependencies over the plan-wide flattened task list. -/
def checkDependencies (task : Task) (plan : Plan) : Bool :=
  depsOk (plan.playlists.flatMap Playlist.tasks) (task.dependsOn.getD [])

/-- Loop body of TaskRunner.executeTaskWithRetry, recursing on the number of
remaining attempts (`maxAttempts - attempt + 1` for the source's 1-based
`attempt` counter).  Each iteration runs `executeTask`; if the task status is
Completed the loop returns (short-circuit, no state read), otherwise it reads
`_state` and returns on Stopping; otherwise, when attempts remain, it emits
the retry marker on stderr, resets the task status to Pending, sleeps the
fixed inter-retry delay (time passes only on the abstract clock) and goes
again. -/
def retryLoop (env : REnv) (pi ti : Nat) (task : Task) (pl : Playlist)
    (maxAttempts : Nat) : Nat → RunState → RunState
  | 0, st => st
  | rem + 1, st =>
    let attempt := maxAttempts - rem
    let (st, status) := executeTask env pi ti task pl st
    if status = TaskStatus.completed then st
    else
      let (s, st) := readState env st
      if s = RunnerState.stopping then st
      else if attempt < maxAttempts then
        let st := { st with
          events := st.events ++ [REvent.taskOutput task.id
            ("\n[Retry " ++ toString attempt ++ "/" ++ jsOptNat task.retryCount ++
              "] Retrying \"" ++ task.name ++ "\"...\n") StreamTag.stderr],
          plan := setTaskStatus st.plan pi ti TaskStatus.pending,
          now := st.now + 2000 }
        retryLoop env pi ti task pl maxAttempts rem st
      else retryLoop env pi ti task pl maxAttempts rem st

/-- TaskRunner.executeTaskWithRetry: attempt budget is `(retryCount ?? 0) + 1`. -/
def executeTaskWithRetry (env : REnv) (pi ti : Nat) (task : Task) (pl : Playlist)
    (st : RunState) : RunState :=
  let maxAttempts := task.retryCount.getD 0 + 1
  retryLoop env pi ti task pl maxAttempts maxAttempts st

/-- Per-task body of TaskRunner.runPlaylistSequential after the state
checks: record the task cursor `_currentTaskIndex = ti`; for a task with a
non-empty `dependsOn` whose dependency check yields skip, mark it Skipped and
emit the skip output line and a synthetic zero-duration task-completed event
(the loop then continues with the next task); otherwise run
execute-with-retry and, with autoplay on and a task remaining, sleep the
configured inter-task delay (playlist override, else the global setting). -/
def seqStep (env : REnv) (pi : Nat) (pl : Playlist) (ti : Nat) (task : Task)
    (st : RunState) : RunState :=
  let st := { st with currentTaskIndex := ti }
  if (task.dependsOn.getD []).length > 0 && !checkDependencies task st.plan then
    { st with
        plan := setTaskStatus st.plan pi ti TaskStatus.skipped,
        events := st.events ++
          [REvent.taskOutput task.id
              ("[Skipped] \"" ++ task.name ++ "\" — dependency not met\n")
              StreamTag.stderr,
            REvent.taskCompleted task.id
              { stdout := "", stderr := "Skipped: dependency not met",
                exitCode := 0, durationMs := 0 }] }
  else
    let st := executeTaskWithRetry env pi ti task pl st
    if pl.autoplay && ti < pl.tasks.length - 1 then
      { st with now := st.now + (pl.autoplayDelay.getD env.configAutoplayDelay) }
    else st

/-- Loop of TaskRunner.runPlaylistSequential: `ti` is the loop index and
`rest` the remaining slice `playlist.tasks[ti..]` of the (length-stable)
task array.  Per iteration: read `_state` and abort on Stopping; read it
again and, if Paused, suspend until resumed, then abort if the post-resume
read observes Stopping; otherwise process the task via `seqStep` and move to
the next one. -/
def seqTasks (env : REnv) (pi : Nat) (pl : Playlist) : Nat → List Task → RunState → RunState
  | _, [], st => st
  | ti, task :: rest, st =>
    let (s1, st) := readState env st
    if s1 = RunnerState.stopping then st
    else
      let (s2, st) := readState env st
      let (st, aborted) :=
        if s2 = RunnerState.paused then
          let (s3, st) := readState env st
          (st, s3 = RunnerState.stopping)
        else (st, false)
      if aborted then st
      else seqTasks env pi pl (ti + 1) rest (seqStep env pi pl ti task st)

/-- TaskRunner.runPlaylistParallel launches all eligible tasks concurrently;
its nondeterministic interleaving has no deterministic shallow embedding, so
it is left as the identity on the run state and every theorem about full
runs carries the hypothesis that no playlist is marked parallel. -/
def runPlaylistParallel (_env : REnv) (_pi : Nat) (_pl : Playlist) (st : RunState) : RunState :=
  st

/-- Loop body of TaskRunner.runLoop: `pi` is the loop index and `rest` the
remaining slice `plan.playlists[pi..]`.  Per playlist: store
`_currentPlaylistIndex = pi`, read `_state` and abort on Stopping, then run
the playlist — parallel via `runPlaylistParallel`, sequential from
`startTask = (pi === this._currentPlaylistIndex) ? this._currentTaskIndex : 0`,
a comparison made after the assignment just above, exactly as in the
source — and emit playlist-completed.  After the last playlist,
all-completed fires. -/
def runLoopAux (env : REnv) : Nat → List Playlist → RunState → RunState
  | _, [], st => { st with events := st.events ++ [REvent.allCompleted] }
  | pi, pl :: rest, st =>
    let st := { st with currentPlaylistIndex := pi }
    let (s, st) := readState env st
    if s = RunnerState.stopping then st
    else
      let st :=
        if pl.parallel.getD false then
          runPlaylistParallel env pi pl st
        else
          let startTask := if pi = st.currentPlaylistIndex then st.currentTaskIndex else 0
          seqTasks env pi pl startTask (pl.tasks.drop startTask) st
      let st := { st with events := st.events ++ [REvent.playlistCompleted pl.id] }
      runLoopAux env (pi + 1) rest st

/-- TaskRunner.runLoop as entered from `play(plan, playlistIndex, taskIndex)`:
the cursor fields are seeded from the arguments and the playlist loop starts
at `_currentPlaylistIndex`. -/
def playRun (env : REnv) (plan : Plan) (playlistIndex taskIndex : Nat) : RunState :=
  let st0 : RunState :=
    { plan := plan
      currentPlaylistIndex := playlistIndex
      currentTaskIndex := taskIndex
      history := []
      events := []
      invoked := []
      verifyCount := 0
      stateReads := 0
      now := 0 }
  runLoopAux env playlistIndex (plan.playlists.drop playlistIndex) st0

/-! ### Derived observers and concrete fixtures -/

/-- Status of the task with the given id, looked up like checkDependencies
does (first match over the flattened playlists). -/
def taskStatusIn (plan : Plan) (tid : String) : Option TaskStatus :=
  ((plan.playlists.flatMap Playlist.tasks).find? (fun t => t.id == tid)).map Task.status

/-- Status of the task at position `(pi, ti)` of the plan. -/
def taskStatusAt (plan : Plan) (pi ti : Nat) : Option TaskStatus :=
  plan.playlists[pi]?.bind fun pl => pl.tasks[ti]?.map Task.status

/-- True when no playlist of the plan is marked parallel; theorems about full
runs are restricted to such plans because concurrent execution has no
deterministic embedding. -/
def allSequential (plan : Plan) : Bool :=
  plan.playlists.all fun pl => !(pl.parallel.getD false)

/-- Minimal task fixture for concrete runs. -/
def mkTask (tid : String) (deps : Option (List String) := none)
    (retry : Option Nat := none) (vcmd : Option String := none) : Task :=
  { id := tid, name := tid, prompt := "do " ++ tid, engine := none, cwd := none,
    files := none, verifyCommand := vcmd, retryCount := retry, dependsOn := deps,
    status := TaskStatus.pending }

/-- Minimal sequential playlist fixture (autoplay off). -/
def mkPlaylist (plid : String) (ts : List Task) : Playlist :=
  { id := plid, name := plid, engine := none, autoplay := false,
    autoplayDelay := none, parallel := none, tasks := ts }

/-- Minimal plan fixture. -/
def mkPlan (pls : List Playlist) : Plan :=
  { version := "1.0", name := "plan", description := none,
    defaultEngine := EngineId.claude, playlists := pls }

/-- Environment where the runner is never paused or stopped, every adapter
attempt resolves with exit code 0, and every verification passes. -/
def envAllOk : REnv :=
  { stateAt := fun _ => RunnerState.playing
    adapter := fun _ => Except.ok { stdout := "out", stderr := "", exitCode := 0, durationMs := 5 }
    verify := fun _ => 0
    fsRead := fun _ => none
    workspaceRoot := "/ws"
    configAutoplayDelay := 2000 }

/-- Plan of two sequential playlists with two tasks each, no dependencies. -/
def planTwoLists : Plan :=
  mkPlan [mkPlaylist "P" [mkTask "a1", mkTask "a2"],
          mkPlaylist "Q" [mkTask "b1", mkTask "b2"]]

/-- Plan with one sequential playlist where task B depends on an id that
resolves to no task, so B is skipped for an unmet dependency. -/
def planWithSkip : Plan :=
  mkPlan [mkPlaylist "P" [mkTask "A", mkTask "B" (some ["zzz"])]]

/-! ### Theorems -/

/-- C8: the process adapter's close handler always resolves with a definite
integer exit code — a null close code (process killed by signal or by
cancellation) is normalized to 1, and a non-null code is passed through. -/
theorem runCli_exitCode_definite :
    (∀ s e d, runCliCloseResult s e none d =
      { stdout := s, stderr := e, exitCode := 1, durationMs := d }) ∧
    (∀ s e c d, (runCliCloseResult s e (some c) d).exitCode = c) := by
  constructor
  · intro s e d; rfl
  · intro s e c d; rfl

/-- C9: dehydrating then hydrating a plan preserves each task's id, name,
prompt, engine, cwd, files and verifyCommand and each playlist's id, name,
engine, autoplay and autoplayDelay, resets every task status to Pending, and
drops every task's retryCount and dependsOn and every playlist's parallel
flag — even though `PlanFileTask` and `PlanFilePlaylist` declare those
fields, `dehydrateTask`/`dehydratePlaylist` leave them unset. -/
theorem plan_roundtrip_drops_retry_deps_parallel :
    (∀ plan : Plan, hydratePlan (dehydratePlan plan) =
      { plan with playlists := plan.playlists.map fun p =>
          { p with parallel := none, tasks := p.tasks.map fun t =>
              { t with retryCount := none, dependsOn := none,
                       status := TaskStatus.pending } } }) ∧
    (∀ t : Task, (dehydrateTask t).retryCount = none ∧ (dehydrateTask t).dependsOn = none) ∧
    (∀ p : Playlist, (dehydratePlaylist p).parallel = none) := by
  refine ⟨fun plan => ?_, fun t => ⟨rfl, rfl⟩, fun p => rfl⟩
  have htask : (hydrateTask ∘ dehydrateTask) =
      (fun t : Task =>
        { t with retryCount := none, dependsOn := none, status := TaskStatus.pending }) :=
    funext fun t => rfl
  have hpl : (hydratePlaylist ∘ dehydratePlaylist) =
      (fun p : Playlist =>
        { p with parallel := none, tasks := p.tasks.map fun t =>
            { t with retryCount := none, dependsOn := none,
                     status := TaskStatus.pending } }) := by
    funext p
    simp only [Function.comp, hydratePlaylist, dehydratePlaylist, List.map_map, htask,
      Option.getD_some]
  simp only [hydratePlan, dehydratePlan, List.map_map, hpl]

/-- C7: play() while Playing is a no-op (state unchanged, no traversal, no
resume); play() while Paused with the unique suspended pause wait present
resumes that wait and moves to Playing without starting a new traversal. -/
theorem play_from_playing_noop_from_paused_resumes :
    (∀ (ctl : RunnerCtl) (p t : Nat), ctl.state = RunnerState.playing →
      playDispatch ctl p t = (ctl, PlayAction.noop)) ∧
    (∀ (ctl : RunnerCtl) (p t : Nat), ctl.state = RunnerState.paused →
      ctl.hasPauseResolve = true →
      playDispatch ctl p t =
        ({ state := RunnerState.playing, hasPauseResolve := false }, PlayAction.resume)) := by
  constructor
  · intro ctl p t h
    simp [playDispatch, h]
  · intro ctl p t h hw
    simp [playDispatch, h, hw]

/-- Witness for C7 at concrete control states. -/
theorem play_from_playing_noop_from_paused_resumes_witness :
    playDispatch { state := RunnerState.playing, hasPauseResolve := false } 0 0 =
      ({ state := RunnerState.playing, hasPauseResolve := false }, PlayAction.noop) ∧
    playDispatch { state := RunnerState.paused, hasPauseResolve := true } 1 2 =
      ({ state := RunnerState.playing, hasPauseResolve := false }, PlayAction.resume) :=
  ⟨play_from_playing_noop_from_paused_resumes.1 _ 0 0 rfl,
   play_from_playing_noop_from_paused_resumes.2 _ 1 2 rfl rfl⟩

/-- C3: a fresh full-plan run issued from Idle (through cmdPlay with a
passing pre-flight check) hands the traversal the plan produced by
resetPlan, and in that plan every task of every playlist has status Pending
— so all statuses are reset before any task executes. -/
theorem fresh_run_resets_all_statuses (ctl : RunnerCtl) (plan : Plan)
    (hidle : ctl.state = RunnerState.idle) :
    cmdPlayFreshPlan ctl true plan = some (resetPlan plan) ∧
    ∀ pl ∈ (resetPlan plan).playlists, ∀ t ∈ pl.tasks, t.status = TaskStatus.pending := by
  constructor
  · simp [cmdPlayFreshPlan, hidle]
  · intro pl hpl t ht
    simp only [resetPlan, List.mem_map] at hpl
    obtain ⟨pl0, _, rfl⟩ := hpl
    simp only [List.mem_map] at ht
    obtain ⟨t0, _, rfl⟩ := ht
    rfl

/-- Witness for C3 at a concrete control state and plan. -/
theorem fresh_run_resets_all_statuses_witness :
    cmdPlayFreshPlan { state := RunnerState.idle, hasPauseResolve := false } true planTwoLists =
      some (resetPlan planTwoLists) ∧
    ∀ pl ∈ (resetPlan planTwoLists).playlists, ∀ t ∈ pl.tasks,
      t.status = TaskStatus.pending :=
  fresh_run_resets_all_statuses _ planTwoLists rfl

/-- C2: evaluation of the run loop at a plan of two sequential playlists of
two tasks each, started from the default cursor with an all-succeeding
adapter and no pause or stop.  Because `runLoop` assigns
`this._currentPlaylistIndex = pi` immediately before testing
`pi === this._currentPlaylistIndex`, the test is always true and the second
playlist starts at the stale task cursor 1 instead of 0: the adapter is
invoked for a1, a2 and b2 only, and b1 — never visited — keeps status
Pending, contradicting the claim that every later playlist begins at task
index 0 with no task omitted. -/
theorem runLoop_stale_cursor_skips_first_task_of_next_playlist :
    (playRun envAllOk planTwoLists 0 0).invoked = ["a1", "a2", "b2"] ∧
    taskStatusIn (playRun envAllOk planTwoLists 0 0).plan "b1" = some TaskStatus.pending ∧
    taskStatusIn (playRun envAllOk planTwoLists 0 0).plan "b2" = some TaskStatus.completed := by
  refine ⟨rfl, rfl, rfl⟩

/-- C1 counterexample: in a run of a playlist `[A, B]` where B depends on an
id that resolves to no task, B ends Skipped for an unmet dependency, yet the
history holds no entry for B at all — only the single entry of A's one
adapter attempt — so a skipped task does not contribute a synthetic
zero-duration history entry. -/
theorem skipped_task_contributes_no_history_entry :
    taskStatusIn (playRun envAllOk planWithSkip 0 0).plan "B" = some TaskStatus.skipped ∧
    ((playRun envAllOk planWithSkip 0 0).history.filter fun e => e.taskId == "B") = [] ∧
    (playRun envAllOk planWithSkip 0 0).history.length = 1 ∧
    (playRun envAllOk planWithSkip 0 0).events.contains
      (REvent.taskCompleted "B"
        { stdout := "", stderr := "Skipped: dependency not met",
          exitCode := 0, durationMs := 0 }) = true := by
  refine ⟨rfl, rfl, rfl, rfl⟩

/-- Helper: one executeTask call appends exactly one history entry and
records exactly one adapter invocation, on both the resolved and the
rejected adapter path. -/
theorem executeTask_counts (env : REnv) (pi ti : Nat) (task : Task) (pl : Playlist)
    (st : RunState) :
    (executeTask env pi ti task pl st).1.history.length = st.history.length + 1 ∧
    (executeTask env pi ti task pl st).1.invoked.length = st.invoked.length + 1 := by
  cases hA : env.adapter st.invoked.length with
  | ok r =>
    simp only [executeTask, hA]
    split <;> simp
  | error m =>
    simp only [executeTask, hA]
    simp

/-- Helper: the retry loop with `fuel` remaining attempts makes some number
`k ≤ fuel` of attempts, appending exactly `k` history entries and recording
exactly `k` adapter invocations. -/
theorem retryLoop_counts (env : REnv) (pi ti : Nat) (task : Task) (pl : Playlist)
    (m : Nat) : ∀ (fuel : Nat) (st : RunState), ∃ k ≤ fuel,
    (retryLoop env pi ti task pl m fuel st).history.length = st.history.length + k ∧
    (retryLoop env pi ti task pl m fuel st).invoked.length = st.invoked.length + k := by
  intro fuel
  induction fuel with
  | zero =>
    intro st
    exact ⟨0, Nat.le_refl 0, rfl, rfl⟩
  | succ rem ih =>
    intro st
    obtain ⟨h1, h2⟩ := executeTask_counts env pi ti task pl st
    rcases hE : executeTask env pi ti task pl st with ⟨st1, status⟩
    rw [hE] at h1 h2
    simp only [retryLoop, hE]
    by_cases hc : status = TaskStatus.completed
    · exact ⟨1, Nat.succ_le_succ (Nat.zero_le rem), by simp [hc, h1], by simp [hc, h2]⟩
    · simp only [hc, if_false, readState]
      by_cases hs : env.stateAt st1.stateReads = RunnerState.stopping
      · exact ⟨1, Nat.succ_le_succ (Nat.zero_le rem), by simp [hs, h1], by simp [hs, h2]⟩
      · simp only [hs, if_false]
        by_cases ha : m - rem < m
        · obtain ⟨k, hk, hh, hi⟩ := ih
            { st1 with
                stateReads := st1.stateReads + 1,
                events := st1.events ++ [REvent.taskOutput task.id
                  ("\n[Retry " ++ toString (m - rem) ++ "/" ++ jsOptNat task.retryCount ++
                    "] Retrying \"" ++ task.name ++ "\"...\n") StreamTag.stderr],
                plan := setTaskStatus st1.plan pi ti TaskStatus.pending,
                now := st1.now + 2000 }
          refine ⟨k + 1, Nat.succ_le_succ hk, ?_, ?_⟩
          · simp only [ha, if_true] at *
            simp only [hh, h1]
            omega
          · simp only [ha, if_true] at *
            simp only [hi, h2]
            omega
        · obtain ⟨k, hk, hh, hi⟩ := ih { st1 with stateReads := st1.stateReads + 1 }
          refine ⟨k + 1, Nat.succ_le_succ hk, ?_, ?_⟩
          · simp only [ha, if_false] at *
            simp only [hh, h1]
            omega
          · simp only [ha, if_false] at *
            simp only [hi, h2]
            omega

/-- Helper: execute-with-retry appends as many history entries as adapter
invocations it records, and at most `retryCount + 1` of each. -/
theorem executeTaskWithRetry_counts (env : REnv) (pi ti : Nat) (task : Task)
    (pl : Playlist) (st : RunState) : ∃ k ≤ task.retryCount.getD 0 + 1,
    (executeTaskWithRetry env pi ti task pl st).history.length = st.history.length + k ∧
    (executeTaskWithRetry env pi ti task pl st).invoked.length = st.invoked.length + k :=
  retryLoop_counts env pi ti task pl (task.retryCount.getD 0 + 1)
    (task.retryCount.getD 0 + 1) st

/-- Helper: one `seqStep` appends as many history entries as adapter
invocations it records (zero of each on the skip path). -/
theorem seqStep_counts (env : REnv) (pi : Nat) (pl : Playlist) (ti : Nat)
    (task : Task) (st : RunState) : ∃ k,
    (seqStep env pi pl ti task st).history.length = st.history.length + k ∧
    (seqStep env pi pl ti task st).invoked.length = st.invoked.length + k := by
  simp only [seqStep]
  split
  · exact ⟨0, rfl, rfl⟩
  · obtain ⟨k, _, hh, hi⟩ :=
      executeTaskWithRetry_counts env pi ti task pl { st with currentTaskIndex := ti }
    refine ⟨k, ?_, ?_⟩ <;> split <;> simp [hh, hi]

/-- Helper: the sequential playlist loop appends as many history entries as
adapter invocations it records. -/
theorem seqTasks_counts (env : REnv) (pi : Nat) (pl : Playlist) :
    ∀ (tasks : List Task) (ti : Nat) (st : RunState), ∃ k,
    (seqTasks env pi pl ti tasks st).history.length = st.history.length + k ∧
    (seqTasks env pi pl ti tasks st).invoked.length = st.invoked.length + k := by
  intro tasks
  induction tasks with
  | nil =>
    intro ti st
    exact ⟨0, rfl, rfl⟩
  | cons task rest ih =>
    intro ti st
    have hbody : ∀ st' : RunState, ∃ k,
        (seqTasks env pi pl (ti + 1) rest (seqStep env pi pl ti task st')).history.length =
          st'.history.length + k ∧
        (seqTasks env pi pl (ti + 1) rest (seqStep env pi pl ti task st')).invoked.length =
          st'.invoked.length + k := by
      intro st'
      obtain ⟨k1, hh1, hi1⟩ := seqStep_counts env pi pl ti task st'
      obtain ⟨k2, hh2, hi2⟩ := ih (ti + 1) (seqStep env pi pl ti task st')
      exact ⟨k1 + k2, by omega, by omega⟩
    simp only [seqTasks, readState]
    by_cases hs1 : env.stateAt st.stateReads = RunnerState.stopping
    · exact ⟨0, by simp [hs1], by simp [hs1]⟩
    · simp only [hs1, if_false]
      by_cases hs2 : env.stateAt (st.stateReads + 1) = RunnerState.paused
      · by_cases hs3 : env.stateAt (st.stateReads + 1 + 1) = RunnerState.stopping
        · refine ⟨0, ?_, ?_⟩ <;> simp [hs2, hs3]
        · simpa [hs2, hs3] using hbody
            { st with stateReads := st.stateReads + 1 + 1 + 1 }
      · simpa [hs2] using hbody { st with stateReads := st.stateReads + 1 + 1 }

/-- Helper: the playlist loop appends as many history entries as adapter
invocations it records, provided no playlist in the remaining slice is
marked parallel. -/
theorem runLoopAux_counts (env : REnv) :
    ∀ (pls : List Playlist) (pi : Nat) (st : RunState),
    (∀ pl ∈ pls, pl.parallel.getD false = false) → ∃ k,
    (runLoopAux env pi pls st).history.length = st.history.length + k ∧
    (runLoopAux env pi pls st).invoked.length = st.invoked.length + k := by
  intro pls
  induction pls with
  | nil =>
    intro pi st _
    exact ⟨0, rfl, rfl⟩
  | cons pl rest ih =>
    intro pi st hseq
    have hpl : pl.parallel.getD false = false := hseq pl (List.mem_cons_self pl rest)
    simp only [runLoopAux, readState, hpl, Bool.false_eq_true, if_false,
      eq_self_iff_true, if_true]
    by_cases hs : env.stateAt st.stateReads = RunnerState.stopping
    · exact ⟨0, by simp [hs], by simp [hs]⟩
    · simp only [hs, if_false]
      obtain ⟨k1, hh1, hi1⟩ := seqTasks_counts env pi pl
        (pl.tasks.drop st.currentTaskIndex) st.currentTaskIndex
        { st with currentPlaylistIndex := pi, stateReads := st.stateReads + 1 }
      obtain ⟨k2, hh2, hi2⟩ := ih (pi + 1)
        { seqTasks env pi pl st.currentTaskIndex (pl.tasks.drop st.currentTaskIndex)
            { st with currentPlaylistIndex := pi, stateReads := st.stateReads + 1 } with
          events := (seqTasks env pi pl st.currentTaskIndex (pl.tasks.drop st.currentTaskIndex)
              { st with currentPlaylistIndex := pi, stateReads := st.stateReads + 1 }).events ++
            [REvent.playlistCompleted pl.id] }
        (fun q hq => hseq q (List.mem_cons_of_mem pl hq))
      simp only at hh1 hi1 hh2 hi2
      exact ⟨k1 + k2, by omega, by omega⟩

/-- C1 (amended): for a full-plan run of a plan with no parallel playlists,
interference-free or not, the history entries appended are exactly as many
as the adapter attempts actually made — one entry per attempt, including
failed and rejected attempts; a task skipped for an unmet dependency appends
no history entry (it only emits a synthetic zero-duration task-completed
event), so skips do not appear in the history count. -/
theorem history_entries_count_adapter_attempts (env : REnv) (plan : Plan)
    (playlistIndex taskIndex : Nat) (hseq : allSequential plan = true) :
    (playRun env plan playlistIndex taskIndex).history.length =
      (playRun env plan playlistIndex taskIndex).invoked.length := by
  have hseq' : ∀ pl ∈ plan.playlists.drop playlistIndex, pl.parallel.getD false = false := by
    intro pl hpl
    have : pl ∈ plan.playlists := List.mem_of_mem_drop hpl
    simpa using (List.all_eq_true.mp hseq) pl this
  obtain ⟨k, hh, hi⟩ := runLoopAux_counts env (plan.playlists.drop playlistIndex)
    playlistIndex
    { plan := plan, currentPlaylistIndex := playlistIndex, currentTaskIndex := taskIndex,
      history := [], events := [], invoked := [], verifyCount := 0, stateReads := 0, now := 0 }
    hseq'
  simp only [List.length_nil] at hh hi
  simp only [playRun]
  omega

/-- Witness for C1's amended theorem: the skip plan run has one history
entry and one adapter invocation. -/
theorem history_entries_count_adapter_attempts_witness :
    allSequential planWithSkip = true ∧
    (playRun envAllOk planWithSkip 0 0).history.length =
      (playRun envAllOk planWithSkip 0 0).invoked.length :=
  ⟨rfl, history_entries_count_adapter_attempts envAllOk planWithSkip 0 0 rfl⟩

/-- Helper: in-place modification of slot `n` is what lookup at `n` sees. -/
theorem listModify_lookup (f : α → α) : ∀ (n : Nat) (l : List α),
    (listModify f n l)[n]? = l[n]?.map f
  | _, [] => by simp [listModify]
  | 0, a :: as => by simp [listModify]
  | n + 1, a :: as => by
    simp only [listModify, List.getElem?_cons_succ]
    exact listModify_lookup f n as

/-- Helper: writing a status at an in-range position is observed there. -/
theorem taskStatusAt_set (plan : Plan) (pi ti : Nat) (s : TaskStatus)
    (h : taskStatusAt plan pi ti ≠ none) :
    taskStatusAt (setTaskStatus plan pi ti s) pi ti = some s := by
  unfold taskStatusAt at h
  unfold taskStatusAt setTaskStatus
  rw [listModify_lookup]
  cases hpl : plan.playlists[pi]? with
  | none => simp [hpl] at h
  | some pl =>
    simp only [hpl, Option.some_bind] at h
    simp only [hpl, Option.map_some', Option.some_bind]
    rw [listModify_lookup]
    cases htk : pl.tasks[ti]? with
    | none => simp [htk] at h
    | some t => simp

/-- Helper: writing a status keeps the position in range. -/
theorem taskStatusAt_set_ne_none (plan : Plan) (pi ti : Nat) (s : TaskStatus)
    (h : taskStatusAt plan pi ti ≠ none) :
    taskStatusAt (setTaskStatus plan pi ti s) pi ti ≠ none := by
  rw [taskStatusAt_set plan pi ti s h]
  exact Option.some_ne_none s

/-- Helper: one executeTask call at an in-range position leaves the task's
plan status equal to the returned status, appends exactly one history entry,
and that entry carries the same status. -/
theorem executeTask_final (env : REnv) (pi ti : Nat) (task : Task) (pl : Playlist)
    (st : RunState) (h : taskStatusAt st.plan pi ti ≠ none) :
    taskStatusAt (executeTask env pi ti task pl st).1.plan pi ti =
      some (executeTask env pi ti task pl st).2 ∧
    (∃ e : HistoryEntry, (executeTask env pi ti task pl st).1.history = st.history ++ [e] ∧
      e.status = (executeTask env pi ti task pl st).2) ∧
    taskStatusAt (executeTask env pi ti task pl st).1.plan pi ti ≠ none := by
  have hrun := taskStatusAt_set_ne_none st.plan pi ti TaskStatus.running h
  cases hA : env.adapter st.invoked.length with
  | ok r =>
    simp only [executeTask, hA]
    split
    · refine ⟨taskStatusAt_set _ pi ti _ hrun, ⟨_, rfl, rfl⟩, ?_⟩
      exact taskStatusAt_set_ne_none _ pi ti _ hrun
    · refine ⟨taskStatusAt_set _ pi ti _ hrun, ⟨_, rfl, rfl⟩, ?_⟩
      exact taskStatusAt_set_ne_none _ pi ti _ hrun
  | error m =>
    simp only [executeTask, hA]
    refine ⟨taskStatusAt_set _ pi ti _ hrun, ⟨_, rfl, rfl⟩, ?_⟩
    exact taskStatusAt_set_ne_none _ pi ti _ hrun

/-- Helper: after the retry loop runs at least one attempt at an in-range
position, the task's plan status equals the status of the last history entry
— the final status reflects only the last attempt. -/
theorem retryLoop_last_status (env : REnv) (pi ti : Nat) (task : Task) (pl : Playlist)
    (m : Nat) : ∀ (fuel : Nat) (st : RunState), 1 ≤ fuel →
    taskStatusAt st.plan pi ti ≠ none →
    ∃ e : HistoryEntry, (retryLoop env pi ti task pl m fuel st).history.getLast? = some e ∧
      taskStatusAt (retryLoop env pi ti task pl m fuel st).plan pi ti = some e.status := by
  intro fuel
  induction fuel with
  | zero => intro st h0; omega
  | succ rem ih =>
    intro st _ hrange
    obtain ⟨hfin, ⟨e, he, hes⟩, hne⟩ := executeTask_final env pi ti task pl st hrange
    rcases hE : executeTask env pi ti task pl st with ⟨st1, status⟩
    rw [hE] at hfin he hes hne
    simp only at hfin he hes hne
    simp only [retryLoop, hE]
    have hlast : st1.history.getLast? = some e := by
      rw [he]; simp
    by_cases hc : status = TaskStatus.completed
    · exact ⟨e, by simp [hc, hlast], by simp [hc, hfin, hes]⟩
    · simp only [hc, if_false, readState]
      by_cases hs : env.stateAt st1.stateReads = RunnerState.stopping
      · exact ⟨e, by simp [hs, hlast], by simp [hs, hfin, hes]⟩
      · simp only [hs, if_false]
        by_cases ha : m - rem < m
        · simp only [ha, if_true]
          cases rem with
          | zero => omega
          | succ rem' =>
            refine ih _ (Nat.succ_le_succ (Nat.zero_le rem')) ?_
            exact taskStatusAt_set_ne_none _ pi ti _ hne
        · simp only [ha, if_false]
          cases rem with
          | zero =>
            exact ⟨e, by simp [retryLoop, hlast], by simp [retryLoop, hfin, hes]⟩
          | succ rem' =>
            exact ih _ (Nat.succ_le_succ (Nat.zero_le rem')) hne

/-- Initial run state for a concrete run over a given plan. -/
def initState (plan : Plan) : RunState :=
  { plan := plan, currentPlaylistIndex := 0, currentTaskIndex := 0, history := [],
    events := [], invoked := [], verifyCount := 0, stateReads := 0, now := 0 }

/-- Environment whose adapter always resolves with a failing exit code. -/
def envFailing : REnv :=
  { envAllOk with
      adapter := fun _ =>
        Except.ok { stdout := "", stderr := "boom", exitCode := 1, durationMs := 1 } }

/-- Environment where the runner has been stopped and every attempt fails. -/
def envStopping : REnv :=
  { envFailing with stateAt := fun _ => RunnerState.stopping }

/-- C4: for a task with retry budget N (`retryCount = N`), one run of
execute-with-retry (i) invokes the engine adapter at most N + 1 times,
(ii) stops retrying right after an attempt that ends Completed, (iii) stops
retrying right after the post-attempt state read observes Stopping, (iv)
when the attempt failed, the runner is not Stopping and attempts remain,
proceeds to the next attempt only after emitting the retry marker, resetting
the task's status to Pending and waiting the fixed 2000 ms inter-retry
delay, and (v) leaves the task's final plan status equal to the status of
the last appended attempt entry — the final status reflects only the last
attempt. -/
theorem retry_budget_and_early_stop :
    (∀ (env : REnv) (pi ti : Nat) (task : Task) (pl : Playlist) (st : RunState),
      (executeTaskWithRetry env pi ti task pl st).invoked.length ≤
        st.invoked.length + (task.retryCount.getD 0 + 1)) ∧
    (∀ (env : REnv) (pi ti : Nat) (task : Task) (pl : Playlist) (st : RunState),
      (executeTask env pi ti task pl st).2 = TaskStatus.completed →
      executeTaskWithRetry env pi ti task pl st = (executeTask env pi ti task pl st).1) ∧
    (∀ (env : REnv) (pi ti : Nat) (task : Task) (pl : Playlist) (st : RunState),
      (executeTask env pi ti task pl st).2 ≠ TaskStatus.completed →
      env.stateAt (executeTask env pi ti task pl st).1.stateReads = RunnerState.stopping →
      executeTaskWithRetry env pi ti task pl st =
        { (executeTask env pi ti task pl st).1 with
            stateReads := (executeTask env pi ti task pl st).1.stateReads + 1 }) ∧
    (∀ (env : REnv) (pi ti : Nat) (task : Task) (pl : Playlist) (st : RunState),
      (executeTask env pi ti task pl st).2 ≠ TaskStatus.completed →
      env.stateAt (executeTask env pi ti task pl st).1.stateReads ≠ RunnerState.stopping →
      0 < task.retryCount.getD 0 →
      executeTaskWithRetry env pi ti task pl st =
        retryLoop env pi ti task pl (task.retryCount.getD 0 + 1) (task.retryCount.getD 0)
          { (executeTask env pi ti task pl st).1 with
              stateReads := (executeTask env pi ti task pl st).1.stateReads + 1,
              events := (executeTask env pi ti task pl st).1.events ++
                [REvent.taskOutput task.id
                  ("\n[Retry " ++ toString (1 : Nat) ++ "/" ++ jsOptNat task.retryCount ++
                    "] Retrying \"" ++ task.name ++ "\"...\n") StreamTag.stderr],
              plan := setTaskStatus (executeTask env pi ti task pl st).1.plan pi ti
                TaskStatus.pending,
              now := (executeTask env pi ti task pl st).1.now + 2000 }) ∧
    (∀ (env : REnv) (pi ti : Nat) (task : Task) (pl : Playlist) (st : RunState),
      taskStatusAt st.plan pi ti ≠ none →
      ∃ e : HistoryEntry,
        (executeTaskWithRetry env pi ti task pl st).history.getLast? = some e ∧
        taskStatusAt (executeTaskWithRetry env pi ti task pl st).plan pi ti = some e.status) := by
  refine ⟨?_, ?_, ?_, ?_, ?_⟩
  · intro env pi ti task pl st
    obtain ⟨k, hk, _, hi⟩ := executeTaskWithRetry_counts env pi ti task pl st
    omega
  · intro env pi ti task pl st hc
    rcases hE : executeTask env pi ti task pl st with ⟨st1, status⟩
    rw [hE] at hc
    simp only at hc
    simp [executeTaskWithRetry, retryLoop, hE, hc]
  · intro env pi ti task pl st hc hs
    rcases hE : executeTask env pi ti task pl st with ⟨st1, status⟩
    rw [hE] at hc hs
    simp only at hc hs
    simp [executeTaskWithRetry, retryLoop, readState, hE, hc, hs]
  · intro env pi ti task pl st hc hs hr
    rcases hE : executeTask env pi ti task pl st with ⟨st1, status⟩
    rw [hE] at hc hs
    simp only at hc hs
    have hlt : task.retryCount.getD 0 + 1 - task.retryCount.getD 0 <
        task.retryCount.getD 0 + 1 := by omega
    simp only [executeTaskWithRetry, retryLoop, readState, hE, hc, if_false, hs, hlt,
      if_true, Nat.add_sub_cancel_left]
    rw [if_pos (show 1 < task.retryCount.getD 0 + 1 by omega)]
  · intro env pi ti task pl st hrange
    exact retryLoop_last_status env pi ti task pl (task.retryCount.getD 0 + 1)
      (task.retryCount.getD 0 + 1) st (by omega) hrange

/-- Witness for C4 at concrete inputs: an always-failing adapter with retry
budget 2 makes exactly three attempts; a first Completed attempt under the
all-succeeding adapter stops after one; a Stopping runner stops after one;
and the final status equals the last history entry's status. -/
theorem retry_budget_and_early_stop_witness :
    (executeTaskWithRetry envFailing 0 0 (mkTask "r" none (some 2))
        (mkPlaylist "P" [mkTask "r" none (some 2)])
        (initState (mkPlan [mkPlaylist "P" [mkTask "r" none (some 2)]]))).invoked.length = 3 ∧
    executeTaskWithRetry envAllOk 0 0 (mkTask "w") (mkPlaylist "P" [mkTask "w"])
        (initState (mkPlan [mkPlaylist "P" [mkTask "w"]])) =
      (executeTask envAllOk 0 0 (mkTask "w") (mkPlaylist "P" [mkTask "w"])
        (initState (mkPlan [mkPlaylist "P" [mkTask "w"]]))).1 ∧
    (∃ e : HistoryEntry,
      (executeTaskWithRetry envFailing 0 0 (mkTask "r" none (some 2))
          (mkPlaylist "P" [mkTask "r" none (some 2)])
          (initState (mkPlan [mkPlaylist "P" [mkTask "r" none (some 2)]]))).history.getLast? =
        some e ∧
      taskStatusAt (executeTaskWithRetry envFailing 0 0 (mkTask "r" none (some 2))
          (mkPlaylist "P" [mkTask "r" none (some 2)])
          (initState (mkPlan [mkPlaylist "P" [mkTask "r" none (some 2)]]))).plan 0 0 =
        some e.status) :=
  ⟨rfl,
   retry_budget_and_early_stop.2.1 envAllOk 0 0 (mkTask "w") (mkPlaylist "P" [mkTask "w"])
     (initState (mkPlan [mkPlaylist "P" [mkTask "w"]])) rfl,
   retry_budget_and_early_stop.2.2.2.2 envFailing 0 0 (mkTask "r" none (some 2))
     (mkPlaylist "P" [mkTask "r" none (some 2)])
     (initState (mkPlan [mkPlaylist "P" [mkTask "r" none (some 2)]]))
     (by decide)⟩

/-- Helper: the dependency walk reports skip exactly when some listed
dependency id either resolves to no task or resolves to a task whose status
is not Completed. -/
theorem depsOk_false_iff (allTasks : List Task) : ∀ deps : List String,
    depsOk allTasks deps = false ↔
      ∃ d ∈ deps, ∀ dep : Task, allTasks.find? (fun t => t.id == d) = some dep →
        dep.status ≠ TaskStatus.completed := by
  intro deps
  induction deps with
  | nil => simp [depsOk]
  | cons d rest ih =>
    simp only [depsOk]
    cases hf : allTasks.find? (fun t => t.id == d) with
    | none =>
      dsimp only
      constructor
      · intro _
        exact ⟨d, List.mem_cons_self d rest,
          fun dep hdep => by rw [hf] at hdep; cases hdep⟩
      · intro _; trivial
    | some dep =>
      dsimp only
      by_cases hfs : dep.status = TaskStatus.failed ∨ dep.status = TaskStatus.skipped
      · rw [if_pos hfs]
        constructor
        · intro _
          refine ⟨d, List.mem_cons_self d rest, fun dep' hdep' => ?_⟩
          rw [hf] at hdep'
          cases hdep'
          rcases hfs with h | h <;> simp [h]
        · intro _; trivial
      · rw [if_neg hfs]
        by_cases hnc : dep.status ≠ TaskStatus.completed
        · rw [if_pos hnc]
          constructor
          · intro _
            refine ⟨d, List.mem_cons_self d rest, fun dep' hdep' => ?_⟩
            rw [hf] at hdep'
            cases hdep'
            exact hnc
          · intro _; trivial
        · rw [if_neg hnc, ih]
          constructor
          · rintro ⟨d', hd', hprop⟩
            exact ⟨d', List.mem_cons_of_mem d hd', hprop⟩
          · rintro ⟨d', hd', hprop⟩
            rcases List.mem_cons.mp hd' with h | h
            · subst h
              exact absurd (hprop dep hf) (by simpa using hnc)
            · exact ⟨d', h, hprop⟩

/-- Helper: one sequential-loop iteration on a gated task whose dependency
check yields skip, in a run where the state is always Playing: the task is
marked Skipped, the skip line and the synthetic zero-duration task-completed
event are emitted, nothing is recorded as an adapter invocation and no
history entry is appended, and the loop continues with the remaining
tasks. -/
theorem seqTasks_skip_eq (env : REnv) (pi : Nat) (pl : Playlist) (ti : Nat)
    (task : Task) (rest : List Task) (st : RunState)
    (hplay : ∀ n, env.stateAt n = RunnerState.playing)
    (hdeps : (task.dependsOn.getD []).length > 0)
    (hchk : checkDependencies task st.plan = false) :
    seqTasks env pi pl ti (task :: rest) st =
      seqTasks env pi pl (ti + 1) rest
        { st with
            stateReads := st.stateReads + 2,
            currentTaskIndex := ti,
            plan := setTaskStatus st.plan pi ti TaskStatus.skipped,
            events := st.events ++
              [REvent.taskOutput task.id
                  ("[Skipped] \"" ++ task.name ++ "\" — dependency not met\n")
                  StreamTag.stderr,
                REvent.taskCompleted task.id
                  { stdout := "", stderr := "Skipped: dependency not met",
                    exitCode := 0, durationMs := 0 }] } := by
  simp only [seqTasks, readState, hplay, seqStep]
  have : decide ((task.dependsOn.getD []).length > 0) = true := by simpa using hdeps
  simp [this, hchk]

/-- Plan fixture with a single task gated on an id that resolves to no
task. -/
def planGated : Plan :=
  mkPlan [mkPlaylist "P" [mkTask "B" (some ["zzz"])]]

/-- C5: the dependency check reports skip exactly when some declared
dependency id resolves to no task or to a task whose current status is not
Completed (Failed, Skipped, still Pending, or Running); and a sequential-loop
iteration on a task with a non-empty dependsOn whose check reports skip marks
the task Skipped and continues with the remaining tasks without recording any
adapter invocation or history entry for it. -/
theorem unmet_dependency_skips_without_adapter :
    (∀ (task : Task) (plan : Plan),
      checkDependencies task plan = false ↔
        ∃ d ∈ task.dependsOn.getD [], ∀ dep : Task,
          (plan.playlists.flatMap Playlist.tasks).find? (fun t => t.id == d) = some dep →
          dep.status ≠ TaskStatus.completed) ∧
    (∀ (env : REnv) (pi : Nat) (pl : Playlist) (ti : Nat) (task : Task)
        (rest : List Task) (st : RunState),
      (∀ n, env.stateAt n = RunnerState.playing) →
      (task.dependsOn.getD []).length > 0 →
      checkDependencies task st.plan = false →
      seqTasks env pi pl ti (task :: rest) st =
        seqTasks env pi pl (ti + 1) rest
          { st with
              stateReads := st.stateReads + 2,
              currentTaskIndex := ti,
              plan := setTaskStatus st.plan pi ti TaskStatus.skipped,
              events := st.events ++
                [REvent.taskOutput task.id
                    ("[Skipped] \"" ++ task.name ++ "\" — dependency not met\n")
                    StreamTag.stderr,
                  REvent.taskCompleted task.id
                    { stdout := "", stderr := "Skipped: dependency not met",
                      exitCode := 0, durationMs := 0 }] }) := by
  constructor
  · intro task plan
    exact depsOk_false_iff (plan.playlists.flatMap Playlist.tasks) (task.dependsOn.getD [])
  · intro env pi pl ti task rest st hplay hdeps hchk
    exact seqTasks_skip_eq env pi pl ti task rest st hplay hdeps hchk

/-- Witness for C5 at a concrete gated task whose dependency id resolves to
no task. -/
theorem unmet_dependency_skips_without_adapter_witness :
    checkDependencies (mkTask "B" (some ["zzz"])) planGated = false ∧
    seqTasks envAllOk 0 (mkPlaylist "P" [mkTask "B" (some ["zzz"])]) 0
        [mkTask "B" (some ["zzz"])] (initState planGated) =
      seqTasks envAllOk 0 (mkPlaylist "P" [mkTask "B" (some ["zzz"])]) 1 []
        { initState planGated with
            stateReads := (initState planGated).stateReads + 2,
            currentTaskIndex := 0,
            plan := setTaskStatus (initState planGated).plan 0 0 TaskStatus.skipped,
            events := (initState planGated).events ++
              [REvent.taskOutput "B" ("[Skipped] \"B\" — dependency not met\n")
                  StreamTag.stderr,
                REvent.taskCompleted "B"
                  { stdout := "", stderr := "Skipped: dependency not met",
                    exitCode := 0, durationMs := 0 }] } :=
  ⟨rfl,
   unmet_dependency_skips_without_adapter.2 envAllOk 0
     (mkPlaylist "P" [mkTask "B" (some ["zzz"])]) 0 (mkTask "B" (some ["zzz"])) []
     (initState planGated) (fun _ => rfl) (by decide) rfl⟩

/-- C10: a task skipped in a sequential playlist for an unmet dependency
makes the Runner emit a task-completed event for the task carrying a
synthetic result with exit code 0, zero duration and stderr
"Skipped: dependency not met" (after the stderr output line), and no
task-failed event is emitted for the skip. -/
theorem skip_emits_synthetic_task_completed (env : REnv) (pi : Nat) (pl : Playlist)
    (ti : Nat) (task : Task) (rest : List Task) (st : RunState)
    (hplay : ∀ n, env.stateAt n = RunnerState.playing)
    (hdeps : (task.dependsOn.getD []).length > 0)
    (hchk : checkDependencies task st.plan = false) :
    ∃ stMid : RunState,
      seqTasks env pi pl ti (task :: rest) st = seqTasks env pi pl (ti + 1) rest stMid ∧
      stMid.events = st.events ++
        [REvent.taskOutput task.id
            ("[Skipped] \"" ++ task.name ++ "\" — dependency not met\n") StreamTag.stderr,
          REvent.taskCompleted task.id
            { stdout := "", stderr := "Skipped: dependency not met",
              exitCode := 0, durationMs := 0 }] ∧
      (∀ r : EngineResult,
        REvent.taskFailed task.id r ∈ stMid.events →
          REvent.taskFailed task.id r ∈ st.events) := by
  refine ⟨_, seqTasks_skip_eq env pi pl ti task rest st hplay hdeps hchk, rfl, ?_⟩
  intro r hr
  simp only at hr
  rcases List.mem_append.mp hr with h | h
  · exact h
  · simp at h

/-- Witness for C10 at a concrete gated task. -/
theorem skip_emits_synthetic_task_completed_witness :
    ∃ stMid : RunState,
      seqTasks envAllOk 0 (mkPlaylist "P" [mkTask "B" (some ["zzz"])]) 0
          [mkTask "B" (some ["zzz"])] (initState planGated) =
        seqTasks envAllOk 0 (mkPlaylist "P" [mkTask "B" (some ["zzz"])]) 1 [] stMid ∧
      stMid.events = (initState planGated).events ++
        [REvent.taskOutput "B" ("[Skipped] \"B\" — dependency not met\n") StreamTag.stderr,
          REvent.taskCompleted "B"
            { stdout := "", stderr := "Skipped: dependency not met",
              exitCode := 0, durationMs := 0 }] ∧
      (∀ r : EngineResult,
        REvent.taskFailed "B" r ∈ stMid.events →
          REvent.taskFailed "B" r ∈ (initState planGated).events) :=
  skip_emits_synthetic_task_completed envAllOk 0
    (mkPlaylist "P" [mkTask "B" (some ["zzz"])]) 0 (mkTask "B" (some ["zzz"])) []
    (initState planGated) (fun _ => rfl) (by decide) rfl

/-- Environment where every verification command exits 1. -/
def envVerifyFail : REnv :=
  { envAllOk with verify := fun _ => 1 }

/-- C6: when the adapter attempt exits 0 and the task declares a
verifyCommand, the verify command is run as a separate process (the verify
call count increases), and a non-zero verify exit overrides the final status
to Failed while the recorded entry preserves the original stdout and stderr
and appends the verification-failure marker to the stderr. -/
theorem verify_failure_overrides_status_to_failed (env : REnv) (pi ti : Nat)
    (task : Task) (pl : Playlist) (st : RunState) (r : EngineResult)
    (hA : env.adapter st.invoked.length = Except.ok r)
    (h0 : r.exitCode = 0)
    (hv : task.verifyCommand.isSome = true)
    (hvf : env.verify st.verifyCount ≠ 0) :
    (executeTask env pi ti task pl st).2 = TaskStatus.failed ∧
    (executeTask env pi ti task pl st).1.verifyCount = st.verifyCount + 1 ∧
    ∃ e : HistoryEntry,
      (executeTask env pi ti task pl st).1.history = st.history ++ [e] ∧
      e.result.stdout = r.stdout ∧
      e.result.stderr = r.stderr ++ "\n[Verification command failed]" ∧
      e.result.exitCode = env.verify st.verifyCount ∧
      e.status = TaskStatus.failed := by
  have hvn : (r.exitCode == 0 && task.verifyCommand.isSome) = true := by
    simp [h0, hv]
  simp [executeTask, hA, hvn, hvf]

/-- Witness for C6 at a concrete verified task under a failing verifier. -/
theorem verify_failure_overrides_status_to_failed_witness :
    (executeTask envVerifyFail 0 0 (mkTask "v" none none (some "npm test"))
        (mkPlaylist "P" [mkTask "v" none none (some "npm test")])
        (initState (mkPlan [mkPlaylist "P" [mkTask "v" none none (some "npm test")]]))).2 =
      TaskStatus.failed ∧
    (executeTask envVerifyFail 0 0 (mkTask "v" none none (some "npm test"))
        (mkPlaylist "P" [mkTask "v" none none (some "npm test")])
        (initState (mkPlan
          [mkPlaylist "P" [mkTask "v" none none (some "npm test")]]))).1.verifyCount =
      0 + 1 ∧
    ∃ e : HistoryEntry,
      (executeTask envVerifyFail 0 0 (mkTask "v" none none (some "npm test"))
          (mkPlaylist "P" [mkTask "v" none none (some "npm test")])
          (initState (mkPlan
            [mkPlaylist "P" [mkTask "v" none none (some "npm test")]]))).1.history =
        [] ++ [e] ∧
      e.result.stdout = "out" ∧
      e.result.stderr = "" ++ "\n[Verification command failed]" ∧
      e.result.exitCode = envVerifyFail.verify 0 ∧
      e.status = TaskStatus.failed :=
  verify_failure_overrides_status_to_failed envVerifyFail 0 0
    (mkTask "v" none none (some "npm test"))
    (mkPlaylist "P" [mkTask "v" none none (some "npm test")])
    (initState (mkPlan [mkPlaylist "P" [mkTask "v" none none (some "npm test")]]))
    { stdout := "out", stderr := "", exitCode := 0, durationMs := 5 }
    rfl rfl rfl (by decide)

end Moag
